import Mathlib

/-!
Shallow embedding of `src/packages/ckeditor5-link/src/link.js`: the link
feature's balloon-panel show/hide state machine, its document-level
subscription lifecycle (escape keydown, outside mouseup, render tracking),
the annotation locator `getPositionParentLink`, and the attachment logic
`_attachPanelToElement`.
-/

namespace CKLink

/-- A view node. `isLinkElement` models `node instanceof LinkElement`; `id`
models reference identity (the JS identity comparison on nodes). -/
structure VNode where
  id : Nat
  isLinkElement : Bool
deriving DecidableEq

/-- Modelled from the spec: `engine.view.Position` (the engine is not part of
this package). A position has a parent node, and `parentAncestors` is the
parent's ancestor chain (`position.parent.getAncestors()`), walked outward to
the document root. -/
structure VPosition where
  parent : VNode
  parentAncestors : List VNode
deriving DecidableEq

/-- Modelled from the spec: the view document selection (external
collaborator, observed read-only). `firstPosition` is
`selection.getFirstPosition()` where `none` models `null`; `isCollapsed` is
`selection.isCollapsed`. A first range exists exactly when a first position
does. -/
structure VSelection where
  firstPosition : Option VPosition
  isCollapsed : Bool
deriving DecidableEq

/-- A JavaScript runtime failure thrown by a handler. -/
inductive JsError where
  | typeError
deriving DecidableEq

/-- The ancestor walk that `getPositionParentLink` performs on a non-null
position: `position.parent.getAncestors().find(a => a instanceof LinkElement)`. -/
def findEnclosingLink (position : VPosition) : Option VNode :=
  position.parentAncestors.find? (fun ancestor => ancestor.isLinkElement)

/-- `getPositionParentLink(position)`. On a `null`/`undefined` position the JS
body dereferences `position.parent`, which throws a `TypeError`. -/
def getPositionParentLink : Option VPosition → Except JsError (Option VNode)
  | none => Except.error JsError.typeError
  | some position => Except.ok (findEnclosingLink position)

/-- Observable requests issued to the external collaborators (mutation engine,
view-positioning collaborator, focus management), in emission order. -/
inductive Out where
  | executeLink (url : String)
  | executeUnlink
  | attachToLink (target : VNode)
  | attachToSelection
  | hidePanel
  | focusEditor
  | selectUrlInput
deriving DecidableEq

/-- State owned by the feature: balloon-panel visibility plus the live
subscriptions. `escapeSubs` and `mouseupSubs` count the document-level
`keydown` and `mouseup` listeners installed by the `change:isVisible` handler;
`renderSubs` lists the `render` listeners installed by the document-click
handler, each entry holding the `parentLink` captured by that listener's
closure. -/
structure PanelState where
  isVisible : Bool
  escapeSubs : Nat
  mouseupSubs : Nat
  renderSubs : List VNode
deriving DecidableEq

/-- Initial state: panel hidden, no subscriptions installed. -/
def initState : PanelState := ⟨false, 0, 0, []⟩

/-- Modelled from the spec: `balloonPanel.view.attachTo` shows the panel, and
the view reports a `change:isVisible` notification exactly when the value
changes. On a change to `true`, the feature's handler installs one `keydown`
(escape) and one `mouseup` (outside-click) listener on `document`. -/
def setVisibleTrue (s : PanelState) : PanelState :=
  if s.isVisible then s
  else { s with
    isVisible := true
    escapeSubs := s.escapeSubs + 1
    mouseupSubs := s.mouseupSubs + 1 }

/-- Modelled from the spec: `balloonPanel.view.hide` hides the panel. On a
change of `isVisible` to `false`, the feature's handler runs
`stopListening(document)`, removing every escape and outside-click listener
the view installed, and `stopListening(viewDocument)`, removing every
render-tracking listener the feature installed. -/
def setVisibleFalse (s : PanelState) : PanelState :=
  if s.isVisible then
    { s with isVisible := false, escapeSubs := 0, mouseupSubs := 0, renderSubs := [] }
  else s

/-- `_attachPanelToElement(parentLink)`: the target is
`parentLink || getPositionParentLink(selection.getFirstPosition())` — the
locator is consulted only when no explicit target is supplied and throws on a
null first position. With a target link the panel is attached to that link's
corresponding DOM element; otherwise to the DOM range of the selection. -/
def attachPanelToElement (parentLink : Option VNode) (sel : VSelection) (s : PanelState) :
    Except JsError (PanelState × List Out) :=
  match parentLink with
  | some target => Except.ok (setVisibleTrue s, [Out.attachToLink target])
  | none =>
    match getPositionParentLink sel.firstPosition with
    | Except.error e => Except.error e
    | Except.ok (some target) => Except.ok (setVisibleTrue s, [Out.attachToLink target])
    | Except.ok none => Except.ok (setVisibleTrue s, [Out.attachToSelection])

/-- `_hidePanel(options)`: hides the panel and, when `options.focusDocument`,
refocuses the editing view afterwards. -/
def hidePanelOp (focusDocument : Bool) (s : PanelState) : PanelState × List Out :=
  (setVisibleFalse s, Out.hidePanel :: if focusDocument then [Out.focusEditor] else [])

/-- One render-tracking listener installed by the document-click handler, with
the `parentLink` its closure captured: return early when the selection has no
first position; hide when the selection is no longer collapsed or no longer
resolves to the same link element; otherwise re-attach the panel to the
captured link via `_attachPanelToElement(parentLink)`. -/
def renderHandler (parentLink : VNode) (sel : VSelection) (s : PanelState) :
    PanelState × List Out :=
  match sel.firstPosition with
  | none => (s, [])
  | some position =>
    if sel.isCollapsed = false ∨ findEnclosingLink position ≠ some parentLink then
      hidePanelOp false s
    else
      match attachPanelToElement (some parentLink) sel s with
      | Except.ok r => r
      | Except.error _ => (s, [])

/-- Fires the installed render listeners in installation order; the emitter
iterates a snapshot of the listener list taken when the event is fired. -/
def runRenderListeners (sel : VSelection) (subs : List VNode) (s : PanelState) :
    PanelState × List Out :=
  match subs with
  | [] => (s, [])
  | parentLink :: rest =>
    let r := renderHandler parentLink sel s
    let r2 := runRenderListeners sel rest r.1
    (r2.1, r.2 ++ r2.2)

/-- The input events the feature reacts to. Selection-carrying events take the
selection observed at dispatch time; `mutationSucceeded` models the outcome of
the external mutation engine's `editor.execute` call, which the handlers never
inspect. -/
inductive Ev where
  | toolbarLinkClick (isFocused : Bool) (sel : VSelection)
  | keystrokeCtrlL (sel : VSelection)
  | docClick (sel : VSelection)
  | render (sel : VSelection)
  | mouseup (targetInPanel : Bool) (targetInEditorRoot : Bool)
  | keydown (keyCode : Nat)
  | submitLink (url : String) (mutationSucceeded : Bool)
  | panelUnlinkClick (mutationSucceeded : Bool)
  | cancelClick
  | toolbarUnlinkClick (mutationSucceeded : Bool)
deriving DecidableEq

/-- Dispatch of one event to the feature's handlers, producing the successor
state and the requests issued to the external collaborators, or the JS error
the handler threw. The `mouseup` and `keydown` document listeners run only
while installed (their counts are nonzero); by the subscription-balance
invariant at most one of each is ever installed, so a single handler run
models the DOM dispatch. -/
def step (e : Ev) (s : PanelState) : Except JsError (PanelState × List Out) :=
  match e with
  | .toolbarLinkClick isFocused sel =>
    if isFocused = false then Except.ok (s, [])
    else
      match attachPanelToElement none sel s with
      | Except.error err => Except.error err
      | Except.ok (s1, outs) => Except.ok (s1, outs ++ [Out.selectUrlInput])
  | .keystrokeCtrlL sel =>
    match attachPanelToElement none sel s with
    | Except.error err => Except.error err
    | Except.ok (s1, outs) => Except.ok (s1, outs ++ [Out.selectUrlInput])
  | .docClick sel =>
    match getPositionParentLink sel.firstPosition with
    | Except.error err => Except.error err
    | Except.ok none => Except.ok (s, [])
    | Except.ok (some parentLink) =>
      if sel.isCollapsed then
        match attachPanelToElement none sel s with
        | Except.error err => Except.error err
        | Except.ok (s1, outs) =>
          Except.ok ({ s1 with renderSubs := s1.renderSubs ++ [parentLink] }, outs)
      else Except.ok (s, [])
  | .render sel => Except.ok (runRenderListeners sel s.renderSubs s)
  | .mouseup targetInPanel targetInEditorRoot =>
    if s.mouseupSubs = 0 then Except.ok (s, [])
    else if targetInPanel then Except.ok (s, [])
    else
      Except.ok (setVisibleFalse s,
        Out.hidePanel :: if targetInEditorRoot then [Out.focusEditor] else [])
  | .keydown keyCode =>
    if s.escapeSubs = 0 then Except.ok (s, [])
    else if keyCode = 27 then Except.ok (hidePanelOp true s)
    else Except.ok (s, [])
  | .submitLink url _ =>
    Except.ok ((hidePanelOp true s).1, Out.executeLink url :: (hidePanelOp true s).2)
  | .panelUnlinkClick _ =>
    Except.ok ((hidePanelOp true s).1, Out.executeUnlink :: (hidePanelOp true s).2)
  | .cancelClick => Except.ok (hidePanelOp true s)
  | .toolbarUnlinkClick _ => Except.ok (s, [Out.executeUnlink])

/-- Result state of dispatching one event. A handler that throws propagates
the error out of the dispatcher; every `Except.error` branch of `step` occurs
before any state mutation, so the state is unchanged. -/
def stepState (e : Ev) (s : PanelState) : PanelState :=
  match step e s with
  | Except.ok r => r.1
  | Except.error _ => s

/-- Runs a sequence of events from a state. -/
def runEvents (s : PanelState) : List Ev → PanelState
  | [] => s
  | e :: rest => runEvents (stepState e s) rest

/-- The close-subscription balance: exactly one escape listener and one
outside-click listener while the panel is visible, none while hidden. -/
def SubBalance (s : PanelState) : Prop :=
  s.escapeSubs = (if s.isVisible then 1 else 0) ∧
  s.mouseupSubs = (if s.isVisible then 1 else 0)

/-- Concrete fixture: a link element in the view. -/
def linkNode : VNode := ⟨0, true⟩

/-- Concrete fixture: a second, distinct link element. -/
def otherLinkNode : VNode := ⟨1, true⟩

/-- Concrete fixture: a text node. -/
def textNode : VNode := ⟨2, false⟩

/-- Concrete fixture: the document root element. -/
def rootNode : VNode := ⟨3, false⟩

/-- Concrete fixture: a position whose parent's ancestor chain passes through
`linkNode`. -/
def posInLink : VPosition := ⟨textNode, [linkNode, rootNode]⟩

/-- Concrete fixture: a position whose parent's ancestor chain passes through
`otherLinkNode`. -/
def posInOtherLink : VPosition := ⟨textNode, [otherLinkNode, rootNode]⟩

/-- Concrete fixture: a collapsed selection inside `linkNode`. -/
def selInLink : VSelection := ⟨some posInLink, true⟩

/-- Concrete fixture: a collapsed selection inside `otherLinkNode`. -/
def selInOtherLink : VSelection := ⟨some posInOtherLink, true⟩

/-- Concrete fixture: a selection with no first position (`null`). -/
def selNoPosition : VSelection := ⟨none, true⟩

/-- Concrete fixture: a shown panel with balanced subscriptions and one
render-tracking listener. -/
def shownState : PanelState := ⟨true, 1, 1, [linkNode]⟩

/-- Entering visibility preserves the close-subscription balance. -/
theorem subBalance_setVisibleTrue (s : PanelState) (h : SubBalance s) :
    SubBalance (setVisibleTrue s) := by
  rcases h with ⟨h1, h2⟩
  by_cases hv : s.isVisible
  · simp [hv] at h1 h2
    simp [SubBalance, setVisibleTrue, hv, h1, h2]
  · simp [hv] at h1 h2
    simp [SubBalance, setVisibleTrue, hv, h1, h2]

/-- Leaving visibility preserves the close-subscription balance. -/
theorem subBalance_setVisibleFalse (s : PanelState) (h : SubBalance s) :
    SubBalance (setVisibleFalse s) := by
  rcases h with ⟨h1, h2⟩
  by_cases hv : s.isVisible
  · simp [SubBalance, setVisibleFalse, hv]
  · simp [hv] at h1 h2
    simp [SubBalance, setVisibleFalse, hv, h1, h2]

/-- `_attachPanelToElement` either throws, or succeeds with the shown state. -/
theorem attach_cases (parentLink : Option VNode) (sel : VSelection) (s : PanelState) :
    attachPanelToElement parentLink sel s = Except.error JsError.typeError ∨
    ∃ outs, attachPanelToElement parentLink sel s = Except.ok (setVisibleTrue s, outs) := by
  cases parentLink with
  | some a => exact Or.inr ⟨[Out.attachToLink a], rfl⟩
  | none =>
    cases hq : sel.firstPosition with
    | none => exact Or.inl (by simp [attachPanelToElement, getPositionParentLink, hq])
    | some p =>
      cases hfl : findEnclosingLink p with
      | none =>
        exact Or.inr ⟨[Out.attachToSelection],
          by simp [attachPanelToElement, getPositionParentLink, hq, hfl]⟩
      | some a =>
        exact Or.inr ⟨[Out.attachToLink a],
          by simp [attachPanelToElement, getPositionParentLink, hq, hfl]⟩

/-- A render-tracking listener preserves the close-subscription balance. -/
theorem subBalance_renderHandler (parentLink : VNode) (sel : VSelection) (s : PanelState)
    (h : SubBalance s) : SubBalance (renderHandler parentLink sel s).1 := by
  unfold renderHandler
  cases hq : sel.firstPosition with
  | none => simpa using h
  | some p =>
    by_cases hc : sel.isCollapsed = false ∨ findEnclosingLink p ≠ some parentLink
    · simp only [hc, if_pos, hidePanelOp]
      exact subBalance_setVisibleFalse s h
    · simp only [hc, if_neg, attachPanelToElement, not_false_eq_true]
      exact subBalance_setVisibleTrue s h

/-- Firing the render listeners preserves the close-subscription balance. -/
theorem subBalance_runRenderListeners (sel : VSelection) :
    ∀ (subs : List VNode) (s : PanelState), SubBalance s →
      SubBalance (runRenderListeners sel subs s).1 := by
  intro subs
  induction subs with
  | nil => intro s h; simpa [runRenderListeners] using h
  | cons a rest ih =>
    intro s h
    simp only [runRenderListeners]
    exact ih _ (subBalance_renderHandler a sel s h)

/-- Renaming the render-tracking listener list does not affect the balance. -/
theorem subBalance_renderSubs_update (s : PanelState) (l : List VNode) (h : SubBalance s) :
    SubBalance { s with renderSubs := l } := by
  simpa [SubBalance] using h

/-- Every single event dispatch preserves the close-subscription balance. -/
theorem subBalance_stepState (e : Ev) (s : PanelState) (h : SubBalance s) :
    SubBalance (stepState e s) := by
  cases e with
  | toolbarLinkClick isFocused sel =>
    by_cases hf : isFocused = false
    · simpa [stepState, step, hf] using h
    · rcases attach_cases none sel s with herr | ⟨outs, hok⟩
      · simpa [stepState, step, hf, herr] using h
      · simpa [stepState, step, hf, hok] using subBalance_setVisibleTrue s h
  | keystrokeCtrlL sel =>
    rcases attach_cases none sel s with herr | ⟨outs, hok⟩
    · simpa [stepState, step, herr] using h
    · simpa [stepState, step, hok] using subBalance_setVisibleTrue s h
  | docClick sel =>
    cases hq : sel.firstPosition with
    | none => simpa [stepState, step, getPositionParentLink, hq] using h
    | some p =>
      cases hfl : findEnclosingLink p with
      | none => simpa [stepState, step, getPositionParentLink, hq, hfl] using h
      | some a =>
        by_cases hc : sel.isCollapsed
        · have hok : attachPanelToElement none sel s =
              Except.ok (setVisibleTrue s, [Out.attachToLink a]) := by
            simp [attachPanelToElement, getPositionParentLink, hq, hfl]
          simpa [stepState, step, getPositionParentLink, hq, hfl, hc, hok] using
            subBalance_renderSubs_update _ _ (subBalance_setVisibleTrue s h)
        · simpa [stepState, step, getPositionParentLink, hq, hfl, hc] using h
  | render sel =>
    simpa [stepState, step] using subBalance_runRenderListeners sel s.renderSubs s h
  | mouseup targetInPanel targetInEditorRoot =>
    by_cases hm : s.mouseupSubs = 0
    · simpa [stepState, step, hm] using h
    · by_cases hp : targetInPanel
      · simpa [stepState, step, hm, hp] using h
      · simpa [stepState, step, hm, hp] using subBalance_setVisibleFalse s h
  | keydown keyCode =>
    by_cases hk : s.escapeSubs = 0
    · simpa [stepState, step, hk] using h
    · by_cases h27 : keyCode = 27
      · simpa [stepState, step, hk, h27, hidePanelOp] using subBalance_setVisibleFalse s h
      · simpa [stepState, step, hk, h27] using h
  | submitLink url ok =>
    simpa [stepState, step, hidePanelOp] using subBalance_setVisibleFalse s h
  | panelUnlinkClick ok =>
    simpa [stepState, step, hidePanelOp] using subBalance_setVisibleFalse s h
  | cancelClick =>
    simpa [stepState, step, hidePanelOp] using subBalance_setVisibleFalse s h
  | toolbarUnlinkClick ok =>
    simpa [stepState, step] using h

/-- Every state reachable from a balanced state is balanced. -/
theorem subBalance_runEvents (evs : List Ev) :
    ∀ s : PanelState, SubBalance s → SubBalance (runEvents s evs) := by
  induction evs with
  | nil => intro s h; exact h
  | cons e rest ih =>
    intro s h
    exact ih _ (subBalance_stepState e s h)

/-- The initial state is balanced. -/
theorem subBalance_initState : SubBalance initState := by
  simp [SubBalance, initState]

/-- Claim C1: in every state reachable by any sequence of events from the
initial (hidden) state, the panel holds exactly one close-on-escape and one
close-on-outside-click subscription while it is shown — two in total — and
exactly zero of each while it is hidden, never more. -/
theorem subscription_balance (evs : List Ev) :
    (runEvents initState evs).escapeSubs =
      (if (runEvents initState evs).isVisible then 1 else 0) ∧
    (runEvents initState evs).mouseupSubs =
      (if (runEvents initState evs).isVisible then 1 else 0) ∧
    (runEvents initState evs).escapeSubs + (runEvents initState evs).mouseupSubs =
      (if (runEvents initState evs).isVisible then 2 else 0) := by
  rcases subBalance_runEvents evs initState subBalance_initState with ⟨h1, h2⟩
  refine ⟨h1, h2, ?_⟩
  by_cases hv : (runEvents initState evs).isVisible <;> simp [hv] at h1 h2 ⊢ <;> omega

/-- Claim C4, counterexample: on a null position `getPositionParentLink`
throws a `TypeError` (it dereferences `position.parent`); it does not return
the "none" result the claim asserts. -/
theorem locator_null_counterexample :
    getPositionParentLink none = Except.error JsError.typeError ∧
    getPositionParentLink none ≠ Except.ok none := by
  constructor
  · rfl
  · intro h
    exact Except.noConfusion h

/-- Claim C4, amended: for a null/undefined input position the locator throws
a `TypeError` rather than returning none — its error branch is reachable —
while for every non-null position it totally returns the first link-annotation
ancestor, or none. -/
theorem locator_null_amended :
    getPositionParentLink none = Except.error JsError.typeError ∧
    ∀ p : VPosition, getPositionParentLink (some p) = Except.ok (findEnclosingLink p) :=
  ⟨rfl, fun _ => rfl⟩

/-- Claim C8: the panel's submit and remove-link handlers invoke the external
mutation and then always complete the hide-panel and focus-restore sequence;
the dispatch result is independent of whether the mutation succeeded, so the
transition to Hidden is never caught, retried, or skipped based on the
mutation's outcome. -/
theorem hide_regardless_of_mutation (s : PanelState) (url : String) :
    step (Ev.submitLink url true) s = step (Ev.submitLink url false) s ∧
    (∀ mutationOk : Bool, step (Ev.submitLink url mutationOk) s =
      Except.ok (setVisibleFalse s, [Out.executeLink url, Out.hidePanel, Out.focusEditor])) ∧
    step (Ev.panelUnlinkClick true) s = step (Ev.panelUnlinkClick false) s ∧
    (∀ mutationOk : Bool, step (Ev.panelUnlinkClick mutationOk) s =
      Except.ok (setVisibleFalse s, [Out.executeUnlink, Out.hidePanel, Out.focusEditor])) ∧
    (setVisibleFalse s).isVisible = false := by
  refine ⟨rfl, fun _ => rfl, rfl, fun _ => rfl, ?_⟩
  by_cases hv : s.isVisible <;> simp [setVisibleFalse, hv]

/-- Claim C7: while the panel is shown, the submit action first invokes the
link mutation with the panel's current URL input value, then hides the panel,
then restores focus to the editing surface, in that order, ending Hidden. -/
theorem submit_sequence (s : PanelState) (url : String) (mutationOk : Bool)
    (h : s.isVisible = true) :
    step (Ev.submitLink url mutationOk) s =
      Except.ok (setVisibleFalse s, [Out.executeLink url, Out.hidePanel, Out.focusEditor]) ∧
    (setVisibleFalse s).isVisible = false := by
  exact ⟨rfl, by simp [setVisibleFalse, h]⟩

/-- Witness for the submit sequence at a concrete shown state. -/
theorem submit_sequence_witness :
    shownState.isVisible = true ∧
    (step (Ev.submitLink "http://example.com" true) shownState =
      Except.ok (setVisibleFalse shownState,
        [Out.executeLink "http://example.com", Out.hidePanel, Out.focusEditor]) ∧
    (setVisibleFalse shownState).isVisible = false) :=
  ⟨rfl, submit_sequence shownState "http://example.com" true rfl⟩

/-- Helper for claim C10: with no first position, every render listener
returns early and changes nothing. -/
theorem runRenderListeners_noPosition (collapsed : Bool) (subs : List VNode) :
    ∀ s : PanelState, runRenderListeners ⟨none, collapsed⟩ subs s = (s, []) := by
  induction subs with
  | nil => intro s; rfl
  | cons a rest ih =>
    intro s
    simp [runRenderListeners, renderHandler, ih]

/-- Claim C10: a render-completed notification at a selection with no first
position is a complete no-op — the state (visibility and every subscription)
is unchanged and no attach or hide request is issued, whatever the state. -/
theorem render_no_position_frame (s : PanelState) (collapsed : Bool) :
    step (Ev.render ⟨none, collapsed⟩) s = Except.ok (s, []) := by
  simp [step, runRenderListeners_noPosition]

/-- Helper: if exactly one element of a list satisfies the query then the
first-match walk returns that element, wherever it sits. -/
theorem find_of_filter_singleton (P : VNode → Bool) :
    ∀ (l : List VNode) (a : VNode), l.filter P = [a] → l.find? P = some a := by
  intro l
  induction l with
  | nil => intro a h; simp [List.filter] at h
  | cons x t ih =>
    intro a h
    by_cases hx : P x
    · simp [List.filter_cons, hx] at h
      rcases h with ⟨hxa, hrest⟩
      subst hxa
      simp [List.find?_cons, hx]
    · rw [List.filter_cons_of_neg (by simp [hx])] at h
      simp [List.find?_cons, hx]
      exact ih a h

/-- Helper: if no element of a list satisfies the query then the first-match
walk returns none. -/
theorem find_of_filter_nil (P : VNode → Bool) :
    ∀ l : List VNode, l.filter P = [] → l.find? P = none := by
  intro l h
  refine List.find?_eq_none.mpr ?_
  intro x hx hP
  have hmem : x ∈ l.filter P := List.mem_filter.mpr ⟨hx, hP⟩
  simp [h] at hmem

/-- Claim C5: if the ancestor chain of the position's parent contains exactly
one link-annotation node, `findEnclosingLink` returns that node, at whatever
depth it sits; if the chain contains no link-annotation node, it returns
none. -/
theorem locator_correctness (p : VPosition) (a : VNode) :
    (p.parentAncestors.filter (fun n => n.isLinkElement) = [a] →
      findEnclosingLink p = some a) ∧
    (p.parentAncestors.filter (fun n => n.isLinkElement) = [] →
      findEnclosingLink p = none) := by
  constructor
  · intro h
    exact find_of_filter_singleton _ _ _ h
  · intro h
    exact find_of_filter_nil _ _ h

/-- Witness for locator correctness: a chain holding exactly one link node at
depth 1 resolves to that node. -/
theorem locator_correctness_witness :
    posInLink.parentAncestors.filter (fun n => n.isLinkElement) = [linkNode] ∧
    findEnclosingLink posInLink = some linkNode :=
  ⟨by decide, (locator_correctness posInLink linkNode).1 (by decide)⟩

/-- Claim C2, counterexample: with the panel already Shown via a qualifying
document click, firing the same qualifying document click again leaves one
panel visible but installs a second render-tracking subscription — the number
of installed subscriptions does increase. -/
theorem idempotent_show_counterexample :
    (runEvents initState [Ev.docClick selInLink]).isVisible = true ∧
    (runEvents initState [Ev.docClick selInLink]).renderSubs.length = 1 ∧
    (runEvents initState [Ev.docClick selInLink, Ev.docClick selInLink]).isVisible = true ∧
    (runEvents initState [Ev.docClick selInLink, Ev.docClick selInLink]).renderSubs.length = 2 := by
  decide

/-- Claim C2, amended: while the panel is Shown, re-firing the toolbar-button
or keystroke show trigger is a pure re-anchoring — the state, including every
subscription, is exactly unchanged; re-firing a document click keeps the panel
visible and does not duplicate the escape or outside-mouseup subscriptions,
but may install up to one additional render-tracking subscription. -/
theorem idempotent_show_amended (s : PanelState) (sel : VSelection)
    (h : s.isVisible = true) :
    stepState (Ev.toolbarLinkClick true sel) s = s ∧
    stepState (Ev.keystrokeCtrlL sel) s = s ∧
    (stepState (Ev.docClick sel) s).isVisible = true ∧
    (stepState (Ev.docClick sel) s).escapeSubs = s.escapeSubs ∧
    (stepState (Ev.docClick sel) s).mouseupSubs = s.mouseupSubs ∧
    (stepState (Ev.docClick sel) s).renderSubs.length ≤ s.renderSubs.length + 1 := by
  have hTrue : setVisibleTrue s = s := by simp [setVisibleTrue, h]
  have hToolbar : stepState (Ev.toolbarLinkClick true sel) s = s := by
    rcases attach_cases none sel s with herr | ⟨outs, hok⟩
    · simp [stepState, step, herr]
    · simp [stepState, step, hok, hTrue]
  have hKey : stepState (Ev.keystrokeCtrlL sel) s = s := by
    rcases attach_cases none sel s with herr | ⟨outs, hok⟩
    · simp [stepState, step, herr]
    · simp [stepState, step, hok, hTrue]
  have hClick : stepState (Ev.docClick sel) s = s ∨
      ∃ a, stepState (Ev.docClick sel) s = { s with renderSubs := s.renderSubs ++ [a] } := by
    cases hq : sel.firstPosition with
    | none => exact Or.inl (by simp [stepState, step, getPositionParentLink, hq])
    | some p =>
      cases hfl : findEnclosingLink p with
      | none => exact Or.inl (by simp [stepState, step, getPositionParentLink, hq, hfl])
      | some a =>
        by_cases hc : sel.isCollapsed
        · refine Or.inr ⟨a, ?_⟩
          have hok : attachPanelToElement none sel s =
              Except.ok (setVisibleTrue s, [Out.attachToLink a]) := by
            simp [attachPanelToElement, getPositionParentLink, hq, hfl]
          simp [stepState, step, getPositionParentLink, hq, hfl, hc, hok, hTrue]
        · exact Or.inl (by simp [stepState, step, getPositionParentLink, hq, hfl, hc])
  refine ⟨hToolbar, hKey, ?_, ?_, ?_, ?_⟩ <;>
    rcases hClick with hEq | ⟨a, hEq⟩ <;> simp [hEq, h]

/-- Claim C6, counterexample: with no explicit annotation span and a selection
that yields no first position, the attach request is not a silent no-op — the
locator throws a `TypeError` inside `_attachPanelToElement`. -/
theorem attach_no_target_counterexample :
    attachPanelToElement none selNoPosition initState = Except.error JsError.typeError ∧
    attachPanelToElement none selNoPosition initState ≠ Except.ok (initState, []) := by
  refine ⟨rfl, ?_⟩
  intro h
  rw [show attachPanelToElement none selNoPosition initState =
      Except.error JsError.typeError from rfl] at h
  exact Except.noConfusion h

/-- Claim C6, amended: an explicitly supplied annotation span wins and the
panel is anchored to its view element; otherwise, when the selection's first
position resolves to a span the panel is anchored to that span's view
element, and when it resolves to none the panel is anchored to the selection
range; but when neither an explicit span nor a selection position exists, the
attach request throws a `TypeError` from the locator (no attach request is
issued and the panel state is unchanged) rather than being a silent no-op. -/
theorem attach_anchoring_amended (a : VNode) (sel : VSelection) (p : VPosition)
    (s : PanelState) :
    attachPanelToElement (some a) sel s =
      Except.ok (setVisibleTrue s, [Out.attachToLink a]) ∧
    (sel.firstPosition = some p → findEnclosingLink p = some a →
      attachPanelToElement none sel s =
        Except.ok (setVisibleTrue s, [Out.attachToLink a])) ∧
    (sel.firstPosition = some p → findEnclosingLink p = none →
      attachPanelToElement none sel s =
        Except.ok (setVisibleTrue s, [Out.attachToSelection])) ∧
    (sel.firstPosition = none →
      attachPanelToElement none sel s = Except.error JsError.typeError) := by
  refine ⟨rfl, ?_, ?_, ?_⟩
  · intro hq hfl
    simp [attachPanelToElement, getPositionParentLink, hq, hfl]
  · intro hq hfl
    simp [attachPanelToElement, getPositionParentLink, hq, hfl]
  · intro hq
    simp [attachPanelToElement, getPositionParentLink, hq]

/-- Witness for the amended attach-anchoring claim at a concrete selection
inside a link. -/
theorem attach_anchoring_witness :
    selInLink.firstPosition = some posInLink ∧
    findEnclosingLink posInLink = some linkNode ∧
    attachPanelToElement none selInLink initState =
      Except.ok (setVisibleTrue initState, [Out.attachToLink linkNode]) :=
  ⟨rfl, by decide,
    (attach_anchoring_amended linkNode selInLink posInLink initState).2.1 rfl (by decide)⟩

/-- Claim C9: in any reachable state where the panel is shown, a mouse-up
whose target lies inside the panel's DOM region changes nothing, while a
mouse-up outside the panel hides the panel, and focus is restored exactly
when the target is contained in the editor's root UI element. -/
theorem outside_click_behavior (evs : List Ev) (targetInEditorRoot : Bool)
    (h : (runEvents initState evs).isVisible = true) :
    step (Ev.mouseup true targetInEditorRoot) (runEvents initState evs) =
      Except.ok (runEvents initState evs, []) ∧
    step (Ev.mouseup false targetInEditorRoot) (runEvents initState evs) =
      Except.ok (setVisibleFalse (runEvents initState evs),
        Out.hidePanel :: if targetInEditorRoot then [Out.focusEditor] else []) ∧
    (setVisibleFalse (runEvents initState evs)).isVisible = false := by
  have hbal := subBalance_runEvents evs initState subBalance_initState
  rcases hbal with ⟨hbe, hbm⟩
  rw [h] at hbm
  simp at hbm
  refine ⟨?_, ?_, ?_⟩
  · simp [step, hbm]
  · simp [step, hbm]
  · simp [setVisibleFalse, h]

/-- Witness for the outside-click behavior after a concrete qualifying
document click has shown the panel. -/
theorem outside_click_witness :
    (runEvents initState [Ev.docClick selInLink]).isVisible = true ∧
    (step (Ev.mouseup true true) (runEvents initState [Ev.docClick selInLink]) =
      Except.ok (runEvents initState [Ev.docClick selInLink], []) ∧
    step (Ev.mouseup false true) (runEvents initState [Ev.docClick selInLink]) =
      Except.ok (setVisibleFalse (runEvents initState [Ev.docClick selInLink]),
        Out.hidePanel :: if true then [Out.focusEditor] else []) ∧
    (setVisibleFalse (runEvents initState [Ev.docClick selInLink])).isVisible = false) :=
  ⟨by decide, outside_click_behavior [Ev.docClick selInLink] true (by decide)⟩

/-- Claim C3: a document click at a collapsed selection resolving to link
span `a` shows the panel; a later render-completed notification whose
selection is still collapsed and still resolves to `a` keeps the panel shown
and re-attaches it to `a`, while one resolving to a different span, to no
span, or to a non-collapsed selection hides the panel. -/
theorem tracking_fidelity (sel sel2 : VSelection) (p p2 : VPosition) (a : VNode)
    (h1 : sel.isCollapsed = true) (h2 : sel.firstPosition = some p)
    (h3 : findEnclosingLink p = some a) (h4 : sel2.firstPosition = some p2) :
    (stepState (Ev.docClick sel) initState).isVisible = true ∧
    (sel2.isCollapsed = true → findEnclosingLink p2 = some a →
      step (Ev.render sel2) (stepState (Ev.docClick sel) initState) =
        Except.ok (stepState (Ev.docClick sel) initState, [Out.attachToLink a])) ∧
    (sel2.isCollapsed = false ∨ findEnclosingLink p2 ≠ some a →
      step (Ev.render sel2) (stepState (Ev.docClick sel) initState) =
        Except.ok (setVisibleFalse (stepState (Ev.docClick sel) initState),
          [Out.hidePanel]) ∧
      (setVisibleFalse (stepState (Ev.docClick sel) initState)).isVisible = false) := by
  have hok : attachPanelToElement none sel initState =
      Except.ok (setVisibleTrue initState, [Out.attachToLink a]) := by
    simp [attachPanelToElement, getPositionParentLink, h2, h3]
  have hvt : setVisibleTrue initState = ⟨true, 1, 1, []⟩ := rfl
  have hs1 : stepState (Ev.docClick sel) initState = ⟨true, 1, 1, [a]⟩ := by
    simp [stepState, step, getPositionParentLink, h2, h3, h1, hok, hvt]
  rw [hs1]
  refine ⟨rfl, ?_, ?_⟩
  · intro hc2 hfl2
    simp [step, runRenderListeners, renderHandler, h4, hc2, hfl2, attachPanelToElement,
      setVisibleTrue]
  · intro hd
    have hcond : sel2.isCollapsed = false ∨ findEnclosingLink p2 ≠ some a := hd
    constructor
    · simp [step, runRenderListeners, renderHandler, h4, hidePanelOp, if_pos hcond]
    · simp [setVisibleFalse]

/-- Witness for tracking fidelity: the panel shown by a click inside
`linkNode` is hidden by a render whose selection resolves to
`otherLinkNode`. -/
theorem tracking_fidelity_witness :
    (selInLink.isCollapsed = true ∧ selInLink.firstPosition = some posInLink ∧
      findEnclosingLink posInLink = some linkNode ∧
      selInOtherLink.firstPosition = some posInOtherLink) ∧
    (step (Ev.render selInOtherLink) (stepState (Ev.docClick selInLink) initState) =
      Except.ok (setVisibleFalse (stepState (Ev.docClick selInLink) initState),
        [Out.hidePanel]) ∧
    (setVisibleFalse (stepState (Ev.docClick selInLink) initState)).isVisible = false) :=
  ⟨⟨rfl, rfl, by decide, rfl⟩,
    (tracking_fidelity selInLink selInOtherLink posInLink posInOtherLink linkNode
      rfl rfl (by decide) rfl).2.2 (Or.inr (by decide))⟩

/-- Witness for the amended idempotent-show claim at a concrete shown state. -/
theorem idempotent_show_amended_witness :
    shownState.isVisible = true ∧
    (stepState (Ev.toolbarLinkClick true selInLink) shownState = shownState ∧
    stepState (Ev.keystrokeCtrlL selInLink) shownState = shownState ∧
    (stepState (Ev.docClick selInLink) shownState).isVisible = true ∧
    (stepState (Ev.docClick selInLink) shownState).escapeSubs = shownState.escapeSubs ∧
    (stepState (Ev.docClick selInLink) shownState).mouseupSubs = shownState.mouseupSubs ∧
    (stepState (Ev.docClick selInLink) shownState).renderSubs.length ≤
      shownState.renderSubs.length + 1) :=
  ⟨rfl, idempotent_show_amended shownState selInLink rfl⟩

end CKLink
